import Mathlib

/-!
Shallow embedding of the lithopserve worker-side profiler core:
`lithopserve/worker/metrics.py`, `lithopserve/worker/metrics_collectors.py`,
`lithopserve/worker/profiler.py`, `lithopserve/worker/profiler_context.py`
and `lithopserve/util/metrics.py`.

Modelling conventions:
* Python floats are modelled as rationals (`ℚ`); every arithmetic operation
  the source performs on metric values is exact in the model, which realises
  the spec's "within floating tolerance" reading of numeric equalities.
* Python process ids and round indices are modelled as `ℕ`.
* `psutil` is modelled by an explicit environment (`SysEnv`): a partial map
  from pids to the values the collectors read, a snapshot of the process
  tree, the system-wide network counters, and the successive readings of
  `time.time()`.
* Raising a Python exception is modelled with `Except PyError`; an
  exception that the source catches is caught at the corresponding place
  in the model.
-/

namespace Lithopserve

/-- Python exceptions raised by the embedded code.
`typeMismatch` is the `TypeError` raised by the explicit `isinstance`
guard in `MetricBase.__add__` / `__sub__` (message
"Cannot add/subtract different metric types").
`missingCtorArgs` is the `TypeError` Python itself raises when
`self.__class__(**new_data)` is evaluated with `new_data` lacking the
required `pid` / `parent_pid` dataclass fields (they have no defaults).
`valueError` is `ValueError("Cannot divide by zero.")` from `__truediv__`.
`noSuchProcess` is `psutil.NoSuchProcess`.
`keyError` is the `KeyError` from `os.environ` lookup of an unset
variable. -/
inductive PyError where
  | typeMismatch
  | missingCtorArgs
  | valueError
  | noSuchProcess
  | keyError
deriving DecidableEq, Repr

/-- `CPUMetric` dataclass (`metrics.py`): fields `timestamp`,
`collection_id` (from `MetricBase`), `pid`, `parent_pid` (from
`ProcessMetric`), and the six additive fields listed in its
`METRIC_TYPES_FIELDS`. -/
structure CPUMetric where
  timestamp : ℚ
  collection_id : ℕ
  pid : Option ℕ
  parent_pid : Option ℕ
  cpu_usage : ℚ
  user_time : ℚ
  system_time : ℚ
  children_user_time : ℚ
  children_system_time : ℚ
  iowait_time : ℚ
deriving DecidableEq, Repr

/-- `MemoryMetric` dataclass: one additive field `memory_usage`. -/
structure MemoryMetric where
  timestamp : ℚ
  collection_id : ℕ
  pid : Option ℕ
  parent_pid : Option ℕ
  memory_usage : ℚ
deriving DecidableEq, Repr

/-- `DiskMetric` dataclass: additive fields `disk_read_mb`,
`disk_write_mb`, `disk_read_rate`, `disk_write_rate`. -/
structure DiskMetric where
  timestamp : ℚ
  collection_id : ℕ
  pid : Option ℕ
  parent_pid : Option ℕ
  disk_read_mb : ℚ
  disk_write_mb : ℚ
  disk_read_rate : ℚ
  disk_write_rate : ℚ
deriving DecidableEq, Repr

/-- `NetworkMetric` dataclass: extends `MetricBase` directly (no pid);
additive fields `net_read_mb`, `net_write_mb`, `net_read_rate`,
`net_write_rate`. -/
structure NetworkMetric where
  timestamp : ℚ
  collection_id : ℕ
  net_read_mb : ℚ
  net_write_mb : ℚ
  net_read_rate : ℚ
  net_write_rate : ℚ
deriving DecidableEq, Repr

/-- A dynamically typed metric record, as handled by the `MetricBase`
operator methods (which dispatch on the concrete Python class). -/
inductive Metric where
  | cpu (m : CPUMetric)
  | memory (m : MemoryMetric)
  | disk (m : DiskMetric)
  | network (m : NetworkMetric)
deriving DecidableEq, Repr

/-- The concrete Python class of a record. -/
inductive MetricKind where
  | cpu
  | memory
  | disk
  | network
deriving DecidableEq, Repr

def Metric.kind : Metric → MetricKind
  | .cpu _ => .cpu
  | .memory _ => .memory
  | .disk _ => .disk
  | .network _ => .network

/-- `MetricBase.__add__` (`metrics.py` lines 23-31), unfolded at each
concrete class.  The `isinstance(other, type(self))` guard raises
`TypeError` (`typeMismatch`) on mixed kinds.  For matching kinds the
source builds `new_data` with `timestamp = max`, `collection_id` of the
left operand and the sums of the `METRIC_TYPES_FIELDS`, then calls
`self.__class__(**new_data)`.  For `CPUMetric`, `MemoryMetric` and
`DiskMetric` that constructor call raises `TypeError`
(`missingCtorArgs`) because `new_data` does not contain the required
`pid` and `parent_pid` fields; only `NetworkMetric` (whose constructor
needs no pid fields) is actually constructed. -/
def Metric.add : Metric → Metric → Except PyError Metric
  | .network a, .network b => .ok (.network
      { timestamp := max a.timestamp b.timestamp
        collection_id := a.collection_id
        net_read_mb := a.net_read_mb + b.net_read_mb
        net_write_mb := a.net_write_mb + b.net_write_mb
        net_read_rate := a.net_read_rate + b.net_read_rate
        net_write_rate := a.net_write_rate + b.net_write_rate })
  | .cpu _, .cpu _ => .error .missingCtorArgs
  | .memory _, .memory _ => .error .missingCtorArgs
  | .disk _, .disk _ => .error .missingCtorArgs
  | _, _ => .error .typeMismatch

/-- `MetricBase.__sub__` (`metrics.py` lines 34-42): same structure as
`__add__` with field-wise difference. -/
def Metric.sub : Metric → Metric → Except PyError Metric
  | .network a, .network b => .ok (.network
      { timestamp := max a.timestamp b.timestamp
        collection_id := a.collection_id
        net_read_mb := a.net_read_mb - b.net_read_mb
        net_write_mb := a.net_write_mb - b.net_write_mb
        net_read_rate := a.net_read_rate - b.net_read_rate
        net_write_rate := a.net_write_rate - b.net_write_rate })
  | .cpu _, .cpu _ => .error .missingCtorArgs
  | .memory _, .memory _ => .error .missingCtorArgs
  | .disk _, .disk _ => .error .missingCtorArgs
  | _, _ => .error .typeMismatch

/-- `MetricBase.__truediv__` (`metrics.py` lines 45-53) at a numeric
scalar.  The zero check `if number == 0: raise ValueError` runs before
any construction, so every kind fails with `valueError` at `n = 0`.
For nonzero `n` the source builds `new_data` with the left operand's
`timestamp` and `collection_id` and the divided fields; as in
`__add__`, the reconstruction succeeds only for `NetworkMetric` and
raises `TypeError` (`missingCtorArgs`) for the process kinds. -/
def Metric.div : Metric → ℚ → Except PyError Metric
  | m, n =>
    if n = 0 then .error .valueError
    else
      match m with
      | .cpu _ => .error .missingCtorArgs
      | .memory _ => .error .missingCtorArgs
      | .disk _ => .error .missingCtorArgs
      | .network a => .ok (.network
          { a with
            net_read_mb := a.net_read_mb / n
            net_write_mb := a.net_write_mb / n
            net_read_rate := a.net_read_rate / n
            net_write_rate := a.net_write_rate / n })

/-- Replace the `collection_id` of a record (used to state commutativity
of `__add__` up to the carried `collection_id`). -/
def Metric.withCollectionId : Metric → ℕ → Metric
  | .cpu m, c => .cpu { m with collection_id := c }
  | .memory m, c => .memory { m with collection_id := c }
  | .disk m, c => .disk { m with collection_id := c }
  | .network m, c => .network { m with collection_id := c }

instance {ε α : Type} [DecidableEq ε] [DecidableEq α] : DecidableEq (Except ε α) := fun x y =>
  match x, y with
  | .ok a, .ok b =>
      if h : a = b then .isTrue (by rw [h]) else .isFalse (by simp [h])
  | .error a, .error b =>
      if h : a = b then .isTrue (by rw [h]) else .isFalse (by simp [h])
  | .ok _, .error _ => .isFalse (by simp)
  | .error _, .ok _ => .isFalse (by simp)

/-- Sample CPU record used in concrete instantiations. -/
def cpuSampleA : CPUMetric :=
  { timestamp := 1, collection_id := 0, pid := some 5, parent_pid := some 1
    cpu_usage := 10, user_time := 1, system_time := 1
    children_user_time := 0, children_system_time := 0, iowait_time := 0 }

/-- A second sample CPU record. -/
def cpuSampleB : CPUMetric :=
  { cpuSampleA with timestamp := 2, cpu_usage := 20 }

/-- Sample Memory record used in concrete instantiations. -/
def memSampleA : MemoryMetric :=
  { timestamp := 1, collection_id := 0, pid := some 5, parent_pid := some 1
    memory_usage := 128 }

/-- Sample Network record used in concrete instantiations. -/
def netSampleA : NetworkMetric :=
  { timestamp := 1, collection_id := 0
    net_read_mb := 4, net_write_mb := 2, net_read_rate := 1, net_write_rate := 1 }

/-- A second sample Network record, in a different collection round. -/
def netSampleB : NetworkMetric :=
  { timestamp := 3, collection_id := 1
    net_read_mb := 6, net_write_mb := 2, net_read_rate := 0, net_write_rate := 0 }

/-- C3: for every pair of records of different concrete kinds both
`__add__` and `__sub__` fail with the TypeMismatch `TypeError` raised by
the `isinstance` guard, and whenever `__add__` or `__sub__` returns a
record, the two operands had the same concrete kind. -/
theorem add_sub_same_kind_only :
    (∀ a b : Metric, a.kind ≠ b.kind →
        Metric.add a b = .error .typeMismatch ∧ Metric.sub a b = .error .typeMismatch)
  ∧ (∀ a b r : Metric, Metric.add a b = .ok r → a.kind = b.kind)
  ∧ (∀ a b r : Metric, Metric.sub a b = .ok r → a.kind = b.kind) := by
  refine ⟨?_, ?_, ?_⟩
  · intro a b hne
    cases a <;> cases b <;> simp_all [Metric.kind, Metric.add, Metric.sub]
  · intro a b r h
    cases a <;> cases b <;> simp_all [Metric.kind, Metric.add]
  · intro a b r h
    cases a <;> cases b <;> simp_all [Metric.kind, Metric.sub]

/-- Witness for C3 at concrete records: a CPU/Memory pair fails both ways
with TypeMismatch, and a successful Network addition has equal kinds. -/
theorem add_sub_same_kind_only_witness :
    ((Metric.cpu cpuSampleA).kind ≠ (Metric.memory memSampleA).kind
      ∧ Metric.add (.cpu cpuSampleA) (.memory memSampleA) = .error .typeMismatch
      ∧ Metric.sub (.cpu cpuSampleA) (.memory memSampleA) = .error .typeMismatch)
  ∧ (Metric.add (.network netSampleA) (.network netSampleB) =
        .ok (.network { timestamp := 3, collection_id := 0, net_read_mb := 10
                        net_write_mb := 4, net_read_rate := 1, net_write_rate := 1 })
      ∧ (Metric.network netSampleA).kind = (Metric.network netSampleB).kind)
  ∧ (Metric.sub (.network netSampleB) (.network netSampleA) =
        .ok (.network { timestamp := 3, collection_id := 1, net_read_mb := 2
                        net_write_mb := 0, net_read_rate := -1, net_write_rate := -1 })
      ∧ (Metric.network netSampleB).kind = (Metric.network netSampleA).kind) :=
  ⟨⟨by decide,
    (add_sub_same_kind_only.1 (.cpu cpuSampleA) (.memory memSampleA) (by decide)).1,
    (add_sub_same_kind_only.1 (.cpu cpuSampleA) (.memory memSampleA) (by decide)).2⟩,
   ⟨by simp only [Metric.add, netSampleA, netSampleB]; norm_num [max_def],
    add_sub_same_kind_only.2.1 (.network netSampleA) (.network netSampleB)
      (.network { timestamp := 3, collection_id := 0, net_read_mb := 10
                  net_write_mb := 4, net_read_rate := 1, net_write_rate := 1 })
      (by simp only [Metric.add, netSampleA, netSampleB]; norm_num [max_def])⟩,
   ⟨by simp only [Metric.sub, netSampleA, netSampleB]; norm_num [max_def],
    add_sub_same_kind_only.2.2 (.network netSampleB) (.network netSampleA)
      (.network { timestamp := 3, collection_id := 1, net_read_mb := 2
                  net_write_mb := 0, net_read_rate := -1, net_write_rate := -1 })
      (by simp only [Metric.sub, netSampleA, netSampleB]; norm_num [max_def])⟩⟩

/-- C4 counterexample: the claim "for all records A and B of the same
concrete kind, (A + B) - B recovers A's additive fields and A + B is
commutative" is false on the code.  At two concrete same-kind CPU
records, `__add__` does not produce a record at all (the reconstruction
raises a `TypeError` for the missing `pid`/`parent_pid` arguments), and
at two concrete Network records from different rounds, `A + B ≠ B + A`
because `collection_id` is carried from the left operand. -/
theorem add_not_total_and_not_commutative :
    Metric.add (.cpu cpuSampleA) (.cpu cpuSampleB) = .error .missingCtorArgs
  ∧ Metric.add (.network netSampleA) (.network netSampleB) ≠
      Metric.add (.network netSampleB) (.network netSampleA) := by
  constructor
  · rfl
  · simp only [Metric.add, netSampleA, netSampleB]
    norm_num [max_def]

/-- C4 (amended): addition and subtraction construct a result only for
Network records.  For all Network records A, B: `(A + B) - B` is exactly
A with timestamp `max` (in particular all of A's additive fields and its
`collection_id` are recovered), and `A + B` equals `B + A` up to the
`collection_id`, which is carried from the left operand.  For the
process kinds (CPU, Memory, Disk), `__add__` and `__sub__` of two
same-kind records fail with the `TypeError` caused by rebuilding the
dataclass without its required `pid` and `parent_pid` fields. -/
theorem add_sub_recover_and_commute_network :
    (∀ a b : NetworkMetric,
        (Metric.add (.network a) (.network b)).bind (fun s => Metric.sub s (.network b)) =
          .ok (.network { a with timestamp := max a.timestamp b.timestamp }))
  ∧ (∀ a b : NetworkMetric,
        (Metric.add (.network a) (.network b)).map (fun m => m.withCollectionId 0) =
          (Metric.add (.network b) (.network a)).map (fun m => m.withCollectionId 0))
  ∧ (∀ a b : CPUMetric, Metric.add (.cpu a) (.cpu b) = .error .missingCtorArgs
      ∧ Metric.sub (.cpu a) (.cpu b) = .error .missingCtorArgs)
  ∧ (∀ a b : MemoryMetric, Metric.add (.memory a) (.memory b) = .error .missingCtorArgs
      ∧ Metric.sub (.memory a) (.memory b) = .error .missingCtorArgs)
  ∧ (∀ a b : DiskMetric, Metric.add (.disk a) (.disk b) = .error .missingCtorArgs
      ∧ Metric.sub (.disk a) (.disk b) = .error .missingCtorArgs) := by
  refine ⟨?_, ?_, ?_, ?_, ?_⟩
  · intro a b
    simp [Metric.add, Metric.sub, Except.bind, max_assoc, max_self, add_sub_cancel_right]
  · intro a b
    simp only [Metric.add, Except.map, Metric.withCollectionId]
    rw [max_comm a.timestamp b.timestamp, add_comm a.net_read_mb b.net_read_mb,
      add_comm a.net_write_mb b.net_write_mb, add_comm a.net_read_rate b.net_read_rate,
      add_comm a.net_write_rate b.net_write_rate]
  · exact fun a b => ⟨rfl, rfl⟩
  · exact fun a b => ⟨rfl, rfl⟩
  · exact fun a b => ⟨rfl, rfl⟩

/-- C5 evaluated at concrete inputs: dividing a process-kind record by a
nonzero scalar fails with the missing-argument `TypeError` (the code
bug); dividing any record by zero fails with `ValueError`; dividing a
Network record by a nonzero scalar divides the additive fields and
carries `timestamp` and `collection_id` unchanged. -/
theorem truediv_eval :
    Metric.div (.cpu cpuSampleA) 2 = .error .missingCtorArgs
  ∧ Metric.div (.memory memSampleA) 2 = .error .missingCtorArgs
  ∧ Metric.div (.network netSampleA) 0 = .error .valueError
  ∧ Metric.div (.cpu cpuSampleA) 0 = .error .valueError
  ∧ Metric.div (.network netSampleA) 2 =
      .ok (.network { timestamp := 1, collection_id := 0, net_read_mb := 2
                      net_write_mb := 1, net_read_rate := 1/2, net_write_rate := 1/2 }) := by
  refine ⟨rfl, rfl, rfl, rfl, ?_⟩
  simp only [Metric.div, netSampleA]
  norm_num

/-- The per-process values `psutil` reports for a live process, as read
by the three per-process collectors (`metrics_collectors.py`):
`memory_info().rss`, `cpu_percent(interval=0.01)`, `cpu_times()` (with
the optional `children_user` / `children_system` / `iowait` attributes
already defaulted to 0 as `getattr(..., 0)` does), and `io_counters()`. -/
structure ProcInfo where
  rssBytes : ℕ
  cpuPercent : ℚ
  cpuUser : ℚ
  cpuSystem : ℚ
  cpuChildrenUser : ℚ
  cpuChildrenSystem : ℚ
  cpuIowait : ℚ
  ioReadBytes : ℚ
  ioWriteBytes : ℚ
deriving DecidableEq, Repr

/-- The `psutil` environment a collection call observes.
`procs pid = none` models `psutil.Process(pid)` (or any read on it)
raising `psutil.NoSuchProcess`; `descendants` is the
`children(recursive=True)` snapshot of a pid; `ppidOf` is the value
`proc.ppid()` reads for a process of the snapshot; `netRecvBytes` /
`netSentBytes` are `psutil.net_io_counters()`; `time n` is the value of
the n-th `time.time()` call. -/
structure SysEnv where
  procs : ℕ → Option ProcInfo
  ppidOf : ℕ → ℕ
  descendants : ℕ → List ℕ
  netRecvBytes : ℚ
  netSentBytes : ℚ
  time : ℕ → ℚ

inductive LogLevel where
  | debug
  | warning
  | error
deriving DecidableEq, Repr

/-- Log lines the embedded code can emit.
`processNoLongerExists` is `logger.warning("Process no longer exists.")`
in the `handle_psutil_error` decorator; `processMissingSkipCollection`
is the `logger.warning(f"Process ... does not exist. Skipping metric
collection.")` in `Profiler._collect_metrics`. -/
inductive LogEvent where
  | processNoLongerExists
  | processMissingSkipCollection
deriving DecidableEq, Repr

def LogEvent.level : LogEvent → LogLevel
  | .processNoLongerExists => .warning
  | .processMissingSkipCollection => .warning

/-- Trace of collector invocations in a round, recording which
collector's `collect_metric` was entered and for which pid; used to
state the memory → CPU → disk → network ordering of a round. -/
inductive CollectEvent where
  | memEv (pid : ℕ)
  | cpuEv (pid : ℕ)
  | diskEv (pid : ℕ)
  | netEv
deriving DecidableEq, Repr

/-- The four append-only metric lists owned by the `MetricCollector`
aggregator (one per collector object). -/
structure MetricCollector where
  cpu_metrics : List CPUMetric
  memory_metrics : List MemoryMetric
  disk_metrics : List DiskMetric
  network_metrics : List NetworkMetric
deriving DecidableEq, Repr

/-- State threaded through one aggregation call: the metric lists, the
clock position (how many `time.time()` calls have happened), the
collector-invocation trace and the emitted log lines. -/
structure RoundAcc where
  mc : MetricCollector
  tick : ℕ
  events : List CollectEvent
  logs : List LogEvent
deriving Repr

/-- `BaseMetricCollector._find_previous_metric` for the Disk collector:
the most recent stored metric with the same pid
(`next((m for m in reversed(self.metrics) if m.pid == pid), None)`). -/
def find_previous_metric (metrics : List DiskMetric) (pid : ℕ) : Option DiskMetric :=
  metrics.reverse.find? (fun m => m.pid == some pid)

/-- `GlobalMetricCollector._find_previous_metric`:
`self.metrics[-1] if self.metrics else None`. -/
def find_previous_network_metric (metrics : List NetworkMetric) : Option NetworkMetric :=
  metrics.getLast?

/-- `IMetricCollector._calculate_rates`:
`(current - previous) / time_diff if time_diff > 0 else 0`. -/
def calculate_rates (current_value previous_value time_diff : ℚ) : ℚ :=
  if time_diff > 0 then (current_value - previous_value) / time_diff else 0

/-- `MemoryMetricCollector.collect_metric`: captures `time.time()`, then
runs `_collect` under `handle_psutil_error` — on `NoSuchProcess` it logs
a warning and returns `None` without appending; otherwise it builds the
record with `memory_usage = rss >> 20` and appends it. -/
def memory_collect (env : SysEnv) (acc : RoundAcc) (pid ppid cid : ℕ) :
    RoundAcc × Option MemoryMetric :=
  let timestamp := env.time acc.tick
  let acc := { acc with tick := acc.tick + 1, events := acc.events ++ [CollectEvent.memEv pid] }
  match env.procs pid with
  | none => ({ acc with logs := acc.logs ++ [LogEvent.processNoLongerExists] }, none)
  | some info =>
      let m : MemoryMetric :=
        { timestamp := timestamp, collection_id := cid
          pid := some pid, parent_pid := some ppid
          memory_usage := ((info.rssBytes >>> 20 : ℕ) : ℚ) }
      ({ acc with mc := { acc.mc with memory_metrics := acc.mc.memory_metrics ++ [m] } },
       some m)

/-- `CPUMetricCollector.collect_metric`: same shape; on a live process it
reads `cpu_percent(interval=0.01)` and `cpu_times()` and appends a
`CPUMetric`. -/
def cpu_collect (env : SysEnv) (acc : RoundAcc) (pid ppid cid : ℕ) :
    RoundAcc × Option CPUMetric :=
  let timestamp := env.time acc.tick
  let acc := { acc with tick := acc.tick + 1, events := acc.events ++ [CollectEvent.cpuEv pid] }
  match env.procs pid with
  | none => ({ acc with logs := acc.logs ++ [LogEvent.processNoLongerExists] }, none)
  | some info =>
      let m : CPUMetric :=
        { timestamp := timestamp, collection_id := cid
          pid := some pid, parent_pid := some ppid
          cpu_usage := info.cpuPercent
          user_time := info.cpuUser, system_time := info.cpuSystem
          children_user_time := info.cpuChildrenUser
          children_system_time := info.cpuChildrenSystem
          iowait_time := info.cpuIowait }
      ({ acc with mc := { acc.mc with cpu_metrics := acc.mc.cpu_metrics ++ [m] } },
       some m)

/-- `DiskMetricCollector.collect_metric`: reads `io_counters()`, converts
to MB (`bytes / 1024.0**2`), locates the previous metric for the same
pid and derives the two rates with `_calculate_rates`, then appends the
record. -/
def disk_collect (env : SysEnv) (acc : RoundAcc) (pid ppid cid : ℕ) :
    RoundAcc × Option DiskMetric :=
  let timestamp := env.time acc.tick
  let acc := { acc with tick := acc.tick + 1, events := acc.events ++ [CollectEvent.diskEv pid] }
  match env.procs pid with
  | none => ({ acc with logs := acc.logs ++ [LogEvent.processNoLongerExists] }, none)
  | some info =>
      let disk_read_mb := info.ioReadBytes / (1024 : ℚ) ^ 2
      let disk_write_mb := info.ioWriteBytes / (1024 : ℚ) ^ 2
      let rates :=
        match find_previous_metric acc.mc.disk_metrics pid with
        | none => ((0 : ℚ), (0 : ℚ))
        | some prev =>
            let time_diff := timestamp - prev.timestamp
            (calculate_rates disk_read_mb prev.disk_read_mb time_diff,
             calculate_rates disk_write_mb prev.disk_write_mb time_diff)
      let m : DiskMetric :=
        { timestamp := timestamp, collection_id := cid
          pid := some pid, parent_pid := some ppid
          disk_read_mb := disk_read_mb, disk_write_mb := disk_write_mb
          disk_read_rate := rates.1, disk_write_rate := rates.2 }
      ({ acc with mc := { acc.mc with disk_metrics := acc.mc.disk_metrics ++ [m] } },
       some m)

/-- `NetworkMetricCollector.collect_metric` (global): reads
`psutil.net_io_counters(pernic=False)`, converts to MB, derives rates
against the latest stored network metric, and appends. -/
def network_collect (env : SysEnv) (acc : RoundAcc) (cid : ℕ) :
    RoundAcc × Option NetworkMetric :=
  let timestamp := env.time acc.tick
  let acc := { acc with tick := acc.tick + 1, events := acc.events ++ [CollectEvent.netEv] }
  let net_read_mb := env.netRecvBytes / (1024 : ℚ) ^ 2
  let net_write_mb := env.netSentBytes / (1024 : ℚ) ^ 2
  let rates :=
    match find_previous_network_metric acc.mc.network_metrics with
    | none => ((0 : ℚ), (0 : ℚ))
    | some prev =>
        let time_diff := timestamp - prev.timestamp
        (calculate_rates net_read_mb prev.net_read_mb time_diff,
         calculate_rates net_write_mb prev.net_write_mb time_diff)
  let m : NetworkMetric :=
    { timestamp := timestamp, collection_id := cid
      net_read_mb := net_read_mb, net_write_mb := net_write_mb
      net_read_rate := rates.1, net_write_rate := rates.2 }
  ({ acc with mc := { acc.mc with network_metrics := acc.mc.network_metrics ++ [m] } },
   some m)

/-- `MetricCollector._collect_metrics_for_process`: memory, then CPU,
then disk collector for one process. -/
def collect_metrics_for_process (env : SysEnv) (acc : RoundAcc) (pid ppid cid : ℕ) :
    RoundAcc :=
  let acc := (memory_collect env acc pid ppid cid).1
  let acc := (cpu_collect env acc pid ppid cid).1
  (disk_collect env acc pid ppid cid).1

/-- `MetricCollector._get_process_list`: `psutil.Process(parent_pid)`
raises `NoSuchProcess` when the root is gone; otherwise the snapshot is
the root plus its recursive children, each paired with the parent pid
that `proc.ppid()` reads. -/
def get_process_list (env : SysEnv) (root : ℕ) :
    Except PyError (List (ℕ × ℕ)) :=
  match env.procs root with
  | none => .error .noSuchProcess
  | some _ => .ok ((root :: env.descendants root).map (fun p => (p, env.ppidOf p)))

/-- `MetricCollector.collect_all_metrics(parent_pid, index)`: resolve the
snapshot, run the three per-process collectors for every process in it,
then invoke the network collector once. -/
def collect_all_metrics (env : SysEnv) (acc : RoundAcc) (root cid : ℕ) :
    Except PyError RoundAcc :=
  match get_process_list env root with
  | .error e => .error e
  | .ok procs =>
      let acc := procs.foldl (fun a pr => collect_metrics_for_process env a pr.1 pr.2 cid) acc
      .ok (network_collect env acc cid).1

/-- Helper: one live process contributes exactly one record to each of
the memory, CPU and disk lists, in the order memory → CPU → disk, and
leaves the network list and the logs unchanged. -/
theorem collect_metrics_for_process_alive (env : SysEnv) (acc : RoundAcc)
    (pid ppid cid : ℕ) (info : ProcInfo) (h : env.procs pid = some info) :
    (collect_metrics_for_process env acc pid ppid cid).mc.memory_metrics.length
        = acc.mc.memory_metrics.length + 1
  ∧ (collect_metrics_for_process env acc pid ppid cid).mc.cpu_metrics.length
        = acc.mc.cpu_metrics.length + 1
  ∧ (collect_metrics_for_process env acc pid ppid cid).mc.disk_metrics.length
        = acc.mc.disk_metrics.length + 1
  ∧ (collect_metrics_for_process env acc pid ppid cid).mc.network_metrics
        = acc.mc.network_metrics
  ∧ (collect_metrics_for_process env acc pid ppid cid).events
        = acc.events ++
            [CollectEvent.memEv pid, CollectEvent.cpuEv pid, CollectEvent.diskEv pid]
  ∧ (collect_metrics_for_process env acc pid ppid cid).logs = acc.logs := by
  simp only [collect_metrics_for_process, memory_collect, cpu_collect, disk_collect, h]
  simp [List.append_assoc]

/-- Helper: the network collector always appends exactly one record to
the network list and a single `netEv` event, leaving the other lists and
the logs unchanged. -/
theorem network_collect_shape (env : SysEnv) (acc : RoundAcc) (cid : ℕ) :
    (network_collect env acc cid).1.mc.network_metrics.length
        = acc.mc.network_metrics.length + 1
  ∧ (network_collect env acc cid).1.mc.memory_metrics = acc.mc.memory_metrics
  ∧ (network_collect env acc cid).1.mc.cpu_metrics = acc.mc.cpu_metrics
  ∧ (network_collect env acc cid).1.mc.disk_metrics = acc.mc.disk_metrics
  ∧ (network_collect env acc cid).1.events = acc.events ++ [CollectEvent.netEv]
  ∧ (network_collect env acc cid).1.logs = acc.logs := by
  simp only [network_collect]
  simp

/-- Helper: folding the per-process collection over a list of live
(pid, ppid) pairs grows the three per-process lists by the length of the
list, leaves the network list unchanged, and traces
memory → CPU → disk for each process in list order. -/
theorem collect_fold_shape (env : SysEnv) (cid : ℕ) (l : List (ℕ × ℕ)) (acc : RoundAcc)
    (h : ∀ pr ∈ l, env.procs pr.1 ≠ none) :
    (l.foldl (fun a pr => collect_metrics_for_process env a pr.1 pr.2 cid)
        acc).mc.memory_metrics.length = acc.mc.memory_metrics.length + l.length
  ∧ (l.foldl (fun a pr => collect_metrics_for_process env a pr.1 pr.2 cid)
        acc).mc.cpu_metrics.length = acc.mc.cpu_metrics.length + l.length
  ∧ (l.foldl (fun a pr => collect_metrics_for_process env a pr.1 pr.2 cid)
        acc).mc.disk_metrics.length = acc.mc.disk_metrics.length + l.length
  ∧ (l.foldl (fun a pr => collect_metrics_for_process env a pr.1 pr.2 cid)
        acc).mc.network_metrics = acc.mc.network_metrics
  ∧ (l.foldl (fun a pr => collect_metrics_for_process env a pr.1 pr.2 cid)
        acc).events = acc.events ++
          l.flatMap (fun pr => [CollectEvent.memEv pr.1, CollectEvent.cpuEv pr.1,
                                CollectEvent.diskEv pr.1]) := by
  induction l generalizing acc with
  | nil => simp
  | cons hd tl ih =>
      obtain ⟨info, hi⟩ := Option.ne_none_iff_exists'.mp (h hd (List.mem_cons_self _ _))
      obtain ⟨s1, s2, s3, s4, s5, _⟩ :=
        collect_metrics_for_process_alive env acc hd.1 hd.2 cid info hi
      have ih2 := ih (collect_metrics_for_process env acc hd.1 hd.2 cid)
        (fun pr hpr => h pr (List.mem_cons_of_mem _ hpr))
      obtain ⟨h1, h2, h3, h4, h5⟩ := ih2
      rw [List.foldl_cons]
      refine ⟨?_, ?_, ?_, ?_, ?_⟩
      · rw [h1, s1, List.length_cons]; omega
      · rw [h2, s2, List.length_cons]; omega
      · rw [h3, s3, List.length_cons]; omega
      · rw [h4, s4]
      · rw [h5, s5]; simp

/-- C7: when the root and all its snapshot descendants are alive
throughout the call, `collect_all_metrics` succeeds and appends exactly
one Memory, one CPU and one Disk record per process plus exactly one
Network record, sampling each process memory → CPU → disk in snapshot
order, with the network collector invoked once, last. -/
theorem collect_all_round_composition (env : SysEnv) (acc : RoundAcc) (root cid : ℕ)
    (halive : ∀ p ∈ root :: env.descendants root, env.procs p ≠ none) :
    ∃ acc2, collect_all_metrics env acc root cid = .ok acc2
      ∧ acc2.mc.memory_metrics.length
          = acc.mc.memory_metrics.length + (root :: env.descendants root).length
      ∧ acc2.mc.cpu_metrics.length
          = acc.mc.cpu_metrics.length + (root :: env.descendants root).length
      ∧ acc2.mc.disk_metrics.length
          = acc.mc.disk_metrics.length + (root :: env.descendants root).length
      ∧ acc2.mc.network_metrics.length = acc.mc.network_metrics.length + 1
      ∧ acc2.events = acc.events ++
          (root :: env.descendants root).flatMap
            (fun p => [CollectEvent.memEv p, CollectEvent.cpuEv p, CollectEvent.diskEv p])
          ++ [CollectEvent.netEv] := by
  obtain ⟨info, hi⟩ := Option.ne_none_iff_exists'.mp (halive root (List.mem_cons_self _ _))
  have hml : ∀ pr ∈ (root :: env.descendants root).map (fun p => (p, env.ppidOf p)),
      env.procs pr.1 ≠ none := by
    intro pr hpr
    obtain ⟨p, hp, rfl⟩ := List.mem_map.mp hpr
    exact halive p hp
  obtain ⟨f1, f2, f3, f4, f5⟩ := collect_fold_shape env cid
    ((root :: env.descendants root).map (fun p => (p, env.ppidOf p))) acc hml
  obtain ⟨n1, n2, n3, n4, n5, _⟩ := network_collect_shape env
    (((root :: env.descendants root).map (fun p => (p, env.ppidOf p))).foldl
      (fun a pr => collect_metrics_for_process env a pr.1 pr.2 cid) acc) cid
  refine ⟨(network_collect env
      (((root :: env.descendants root).map (fun p => (p, env.ppidOf p))).foldl
        (fun a pr => collect_metrics_for_process env a pr.1 pr.2 cid) acc) cid).1,
    by simp only [collect_all_metrics, get_process_list, hi], ?_, ?_, ?_, ?_, ?_⟩
  · rw [n2, f1]; simp
  · rw [n3, f2]; simp
  · rw [n4, f3]; simp
  · rw [n1, f4]
  · rw [n5, f5]
    simp [List.flatMap_map, List.append_assoc]

/-- Environment for the C7 witness: root 1 with children 2 and 3, all
alive, every reading zero. -/
def infoZero : ProcInfo :=
  { rssBytes := 0, cpuPercent := 0, cpuUser := 0, cpuSystem := 0
    cpuChildrenUser := 0, cpuChildrenSystem := 0, cpuIowait := 0
    ioReadBytes := 0, ioWriteBytes := 0 }

def envThreeProcs : SysEnv :=
  { procs := fun p => if p = 1 ∨ p = 2 ∨ p = 3 then some infoZero else none
    ppidOf := fun p => if p = 1 then 0 else 1
    descendants := fun p => if p = 1 then [2, 3] else []
    netRecvBytes := 0, netSentBytes := 0, time := fun _ => 0 }

def accEmpty : RoundAcc :=
  { mc := { cpu_metrics := [], memory_metrics := [], disk_metrics := []
            network_metrics := [] }
    tick := 0, events := [], logs := [] }

/-- Witness for C7: a root with two children yields 3 Memory + 3 CPU +
3 Disk + 1 Network records in one round, in the stated order. -/
theorem collect_all_round_composition_witness :
    (∀ p ∈ 1 :: envThreeProcs.descendants 1, envThreeProcs.procs p ≠ none)
  ∧ (∃ acc2, collect_all_metrics envThreeProcs accEmpty 1 0 = .ok acc2
      ∧ acc2.mc.memory_metrics.length = 3
      ∧ acc2.mc.cpu_metrics.length = 3
      ∧ acc2.mc.disk_metrics.length = 3
      ∧ acc2.mc.network_metrics.length = 1
      ∧ acc2.events =
          [CollectEvent.memEv 1, CollectEvent.cpuEv 1, CollectEvent.diskEv 1,
           CollectEvent.memEv 2, CollectEvent.cpuEv 2, CollectEvent.diskEv 2,
           CollectEvent.memEv 3, CollectEvent.cpuEv 3, CollectEvent.diskEv 3,
           CollectEvent.netEv]) := by
  refine ⟨by decide, ?_⟩
  obtain ⟨acc2, he, h1, h2, h3, h4, h5⟩ :=
    collect_all_round_composition envThreeProcs accEmpty 1 0 (by decide)
  refine ⟨acc2, he, ?_, ?_, ?_, ?_, ?_⟩
  · simpa [envThreeProcs, accEmpty] using h1
  · simpa [envThreeProcs, accEmpty] using h2
  · simpa [envThreeProcs, accEmpty] using h3
  · simpa [envThreeProcs, accEmpty] using h4
  · simpa [envThreeProcs, accEmpty] using h5

/-- C8: for each per-process collector, collecting for a pid whose
process no longer exists returns `None` (absent) instead of raising,
logs at warning level, appends nothing to the collector's metric list,
and the enclosing `collect_all_metrics` round still succeeds whenever
the root itself is alive. -/
theorem dead_pid_collect_absent (env : SysEnv) (acc : RoundAcc) (pid ppid cid : ℕ)
    (h : env.procs pid = none) :
    ((memory_collect env acc pid ppid cid).2 = none
      ∧ (memory_collect env acc pid ppid cid).1.mc = acc.mc
      ∧ (memory_collect env acc pid ppid cid).1.logs
          = acc.logs ++ [LogEvent.processNoLongerExists])
  ∧ ((cpu_collect env acc pid ppid cid).2 = none
      ∧ (cpu_collect env acc pid ppid cid).1.mc = acc.mc
      ∧ (cpu_collect env acc pid ppid cid).1.logs
          = acc.logs ++ [LogEvent.processNoLongerExists])
  ∧ ((disk_collect env acc pid ppid cid).2 = none
      ∧ (disk_collect env acc pid ppid cid).1.mc = acc.mc
      ∧ (disk_collect env acc pid ppid cid).1.logs
          = acc.logs ++ [LogEvent.processNoLongerExists])
  ∧ LogEvent.level .processNoLongerExists = .warning
  ∧ (∀ root, env.procs root ≠ none →
        ∃ acc2, collect_all_metrics env acc root cid = .ok acc2) := by
  refine ⟨?_, ?_, ?_, rfl, ?_⟩
  · simp [memory_collect, h]
  · simp [cpu_collect, h]
  · simp [disk_collect, h]
  · intro root hroot
    obtain ⟨i, hi⟩ := Option.ne_none_iff_exists'.mp hroot
    exact ⟨(network_collect env
        (((root :: env.descendants root).map (fun p => (p, env.ppidOf p))).foldl
          (fun a pr => collect_metrics_for_process env a pr.1 pr.2 cid) acc) cid).1,
      by simp only [collect_all_metrics, get_process_list, hi]⟩

/-- Environment for the C8 witness: root 1 alive with snapshot child 9
that has exited by collection time. -/
def envDeadChild : SysEnv :=
  { procs := fun p => if p = 1 then some infoZero else none
    ppidOf := fun _ => 1
    descendants := fun p => if p = 1 then [9] else []
    netRecvBytes := 0, netSentBytes := 0, time := fun _ => 0 }

/-- Witness for C8 at pid 9 of `envDeadChild`. -/
theorem dead_pid_collect_absent_witness :
    envDeadChild.procs 9 = none
  ∧ (memory_collect envDeadChild accEmpty 9 1 0).2 = none
  ∧ (memory_collect envDeadChild accEmpty 9 1 0).1.mc = accEmpty.mc
  ∧ (cpu_collect envDeadChild accEmpty 9 1 0).2 = none
  ∧ (disk_collect envDeadChild accEmpty 9 1 0).2 = none
  ∧ (disk_collect envDeadChild accEmpty 9 1 0).1.logs
      = accEmpty.logs ++ [LogEvent.processNoLongerExists]
  ∧ (∃ acc2, collect_all_metrics envDeadChild accEmpty 1 0 = .ok acc2) :=
  ⟨rfl,
   (dead_pid_collect_absent envDeadChild accEmpty 9 1 0 rfl).1.1,
   (dead_pid_collect_absent envDeadChild accEmpty 9 1 0 rfl).1.2.1,
   (dead_pid_collect_absent envDeadChild accEmpty 9 1 0 rfl).2.1.1,
   (dead_pid_collect_absent envDeadChild accEmpty 9 1 0 rfl).2.2.1.1,
   (dead_pid_collect_absent envDeadChild accEmpty 9 1 0 rfl).2.2.1.2.2,
   (dead_pid_collect_absent envDeadChild accEmpty 9 1 0 rfl).2.2.2.2 1 (by decide)⟩

/-- C6: the rate fields of the rate-bearing collectors (Disk per pid,
Network globally) are derived per `_calculate_rates`: with a previous
sample for the same subject and a positive time delta the rate is
`(current_cumulative - previous_cumulative) / Δt`; with no previous
sample, or a non-positive delta, the rate is 0. -/
theorem rate_derivation :
    (∀ (env : SysEnv) (acc : RoundAcc) (pid ppid cid : ℕ) (info : ProcInfo),
        env.procs pid = some info →
        find_previous_metric acc.mc.disk_metrics pid = none →
        ((disk_collect env acc pid ppid cid).2.map
            (fun m => (m.disk_read_rate, m.disk_write_rate))) = some (0, 0))
  ∧ (∀ (env : SysEnv) (acc : RoundAcc) (pid ppid cid : ℕ) (info : ProcInfo)
        (prev : DiskMetric),
        env.procs pid = some info →
        find_previous_metric acc.mc.disk_metrics pid = some prev →
        0 < env.time acc.tick - prev.timestamp →
        ((disk_collect env acc pid ppid cid).2.map
            (fun m => (m.disk_read_rate, m.disk_write_rate))) =
          some ((info.ioReadBytes / (1024 : ℚ) ^ 2 - prev.disk_read_mb)
                  / (env.time acc.tick - prev.timestamp),
                (info.ioWriteBytes / (1024 : ℚ) ^ 2 - prev.disk_write_mb)
                  / (env.time acc.tick - prev.timestamp)))
  ∧ (∀ (env : SysEnv) (acc : RoundAcc) (pid ppid cid : ℕ) (info : ProcInfo)
        (prev : DiskMetric),
        env.procs pid = some info →
        find_previous_metric acc.mc.disk_metrics pid = some prev →
        ¬ 0 < env.time acc.tick - prev.timestamp →
        ((disk_collect env acc pid ppid cid).2.map
            (fun m => (m.disk_read_rate, m.disk_write_rate))) = some (0, 0))
  ∧ (∀ (env : SysEnv) (acc : RoundAcc) (cid : ℕ),
        find_previous_network_metric acc.mc.network_metrics = none →
        ((network_collect env acc cid).2.map
            (fun m => (m.net_read_rate, m.net_write_rate))) = some (0, 0))
  ∧ (∀ (env : SysEnv) (acc : RoundAcc) (cid : ℕ) (prev : NetworkMetric),
        find_previous_network_metric acc.mc.network_metrics = some prev →
        0 < env.time acc.tick - prev.timestamp →
        ((network_collect env acc cid).2.map
            (fun m => (m.net_read_rate, m.net_write_rate))) =
          some ((env.netRecvBytes / (1024 : ℚ) ^ 2 - prev.net_read_mb)
                  / (env.time acc.tick - prev.timestamp),
                (env.netSentBytes / (1024 : ℚ) ^ 2 - prev.net_write_mb)
                  / (env.time acc.tick - prev.timestamp)))
  ∧ (∀ (env : SysEnv) (acc : RoundAcc) (cid : ℕ) (prev : NetworkMetric),
        find_previous_network_metric acc.mc.network_metrics = some prev →
        ¬ 0 < env.time acc.tick - prev.timestamp →
        ((network_collect env acc cid).2.map
            (fun m => (m.net_read_rate, m.net_write_rate))) = some (0, 0)) := by
  refine ⟨?_, ?_, ?_, ?_, ?_, ?_⟩
  · intro env acc pid ppid cid info h hprev
    simp [disk_collect, h, hprev]
  · intro env acc pid ppid cid info prev h hprev ht
    simp [disk_collect, h, hprev, calculate_rates, if_pos ht]
    constructor <;> intro hle <;> exact absurd (sub_pos.mp ht) (not_lt.mpr hle)
  · intro env acc pid ppid cid info prev h hprev ht
    have hle := sub_nonpos.mp (not_lt.mp ht)
    simp [disk_collect, h, hprev, calculate_rates, if_neg ht]
    constructor <;> intro hlt <;> exact absurd hlt (not_lt.mpr hle)
  · intro env acc cid hprev
    simp [network_collect, hprev]
  · intro env acc cid prev hprev ht
    simp [network_collect, hprev, calculate_rates, if_pos ht]
    constructor <;> intro hle <;> exact absurd (sub_pos.mp ht) (not_lt.mpr hle)
  · intro env acc cid prev hprev ht
    have hle := sub_nonpos.mp (not_lt.mp ht)
    simp [network_collect, hprev, calculate_rates, if_neg ht]
    constructor <;> intro hlt <;> exact absurd hlt (not_lt.mpr hle)

/-- The spec's worked example: a previous Disk sample for pid 1 with
10 MB cumulative reads at t = 0. -/
def diskPrevExample : DiskMetric :=
  { timestamp := 0, collection_id := 0, pid := some 1, parent_pid := some 0
    disk_read_mb := 10, disk_write_mb := 0, disk_read_rate := 0, disk_write_rate := 0 }

/-- Environment for the C6 witness: pid 1 now shows 15 MB cumulative
reads (`io_counters().read_bytes = 15 * 2^20`) and the clock reads 5. -/
def diskEnvExample : SysEnv :=
  { procs := fun _ => some { infoZero with ioReadBytes := 15 * 1048576 }
    ppidOf := fun _ => 0
    descendants := fun _ => []
    netRecvBytes := 0, netSentBytes := 0, time := fun _ => 5 }

def diskAccExample : RoundAcc :=
  { mc := { cpu_metrics := [], memory_metrics := [], disk_metrics := [diskPrevExample]
            network_metrics := [] }
    tick := 0, events := [], logs := [] }

/-- Witness for C6: 10 MB at t = 0 and 15 MB at t = 5 derive a read rate
of 1.0 MB/s, and a first-ever sample (empty history) has rates 0. -/
theorem rate_derivation_witness :
    diskEnvExample.procs 1 = some { infoZero with ioReadBytes := 15 * 1048576 }
  ∧ find_previous_metric diskAccExample.mc.disk_metrics 1 = some diskPrevExample
  ∧ 0 < diskEnvExample.time diskAccExample.tick - diskPrevExample.timestamp
  ∧ ((disk_collect diskEnvExample diskAccExample 1 0 1).2.map
        (fun m => (m.disk_read_rate, m.disk_write_rate))) = some (1, 0)
  ∧ find_previous_metric accEmpty.mc.disk_metrics 1 = none
  ∧ ((disk_collect diskEnvExample accEmpty 1 0 0).2.map
        (fun m => (m.disk_read_rate, m.disk_write_rate))) = some (0, 0) := by
  refine ⟨rfl, by decide, by norm_num [diskEnvExample, diskAccExample, diskPrevExample], ?_, by decide, ?_⟩
  · have h := rate_derivation.2.1 diskEnvExample diskAccExample 1 0 1
      { infoZero with ioReadBytes := 15 * 1048576 } diskPrevExample rfl (by decide)
      (by norm_num [diskEnvExample, diskAccExample, diskPrevExample])
    rw [h]
    norm_num [diskEnvExample, diskAccExample, diskPrevExample, infoZero]
  · exact rate_derivation.1 diskEnvExample accEmpty 1 0 0
      { infoZero with ioReadBytes := 15 * 1048576 } rfl (by decide)

/-- The static export labels `Profiler._prepare_profiling_data` builds
from the job descriptor. -/
structure JobLabels where
  job_id : String
  executor_id : String
  call_id : String
deriving DecidableEq, Repr

/-- Python `str()` of an optional pid as stored in a record. -/
def pyStrOptNat : Option ℕ → String
  | none => "None"
  | some n => toString n

/-- The (name, value) pairs `_send_metrics_to_prometheus` reads off a
CPU record, per `METRIC_COLLECTIONS_FIELDS` (`profiler.py` lines 18-23). -/
def cpuFieldValues (m : CPUMetric) : List (String × ℚ) :=
  [("cpu_usage", m.cpu_usage), ("user_time", m.user_time),
   ("system_time", m.system_time), ("children_user_time", m.children_user_time),
   ("children_system_time", m.children_system_time), ("iowait_time", m.iowait_time)]

def memoryFieldValues (m : MemoryMetric) : List (String × ℚ) :=
  [("memory_usage", m.memory_usage)]

def diskFieldValues (m : DiskMetric) : List (String × ℚ) :=
  [("disk_read_mb", m.disk_read_mb), ("disk_write_mb", m.disk_write_mb),
   ("disk_read_rate", m.disk_read_rate), ("disk_write_rate", m.disk_write_rate)]

def networkFieldValues (m : NetworkMetric) : List (String × ℚ) :=
  [("net_read_mb", m.net_read_mb), ("net_write_mb", m.net_write_mb),
   ("net_read_rate", m.net_read_rate), ("net_write_rate", m.net_write_rate)]

/-- One gauge pushed to the exporter: metric name, value, and the label
path in dict-insertion order. -/
structure SentMetric where
  name : String
  value : ℚ
  labels : List (String × String)
deriving DecidableEq, Repr

/-- `Profiler._send_metrics_to_prometheus`: one `send_metric` call per
field of the record; `labels_dict` is the static job labels, extended
with `pid` / `parent_pid` (as strings) for every non-network kind.
`procIds = none` encodes the `metric_type == network_metrics` case. -/
def send_metrics_to_prometheus (d : JobLabels) (procIds : Option (Option ℕ × Option ℕ))
    (fields : List (String × ℚ)) : List SentMetric :=
  fields.map (fun kv =>
    { name := kv.1
      value := kv.2
      labels := [("job_id", d.job_id), ("executor_id", d.executor_id),
                 ("call_id", d.call_id)] ++
        (match procIds with
         | some pp => [("pid", pyStrOptNat pp.1), ("parent_pid", pyStrOptNat pp.2)]
         | none => []) })

/-- `Profiler._send_metrics`: for each metric type (in
`METRIC_COLLECTIONS_FIELDS` insertion order: cpu, memory, disk,
network), if `index < len(metric_list)` send the fields of
`metric_list[index]` — a single record per kind per round, indexed into
the cumulative list. -/
def send_metrics (mc : MetricCollector) (index : ℕ) (d : JobLabels) : List SentMetric :=
  (match mc.cpu_metrics.get? index with
   | some m => send_metrics_to_prometheus d (some (m.pid, m.parent_pid)) (cpuFieldValues m)
   | none => []) ++
  (match mc.memory_metrics.get? index with
   | some m => send_metrics_to_prometheus d (some (m.pid, m.parent_pid)) (memoryFieldValues m)
   | none => []) ++
  (match mc.disk_metrics.get? index with
   | some m => send_metrics_to_prometheus d (some (m.pid, m.parent_pid)) (diskFieldValues m)
   | none => []) ++
  (match mc.network_metrics.get? index with
   | some m => send_metrics_to_prometheus d none (networkFieldValues m)
   | none => [])

/-- `Profiler._check_stop_signal`: non-blocking poll of the control
connection; a pending message equal to `"stop"` means stop. -/
def check_stop_signal : Option String → Bool
  | some m => m == "stop"
  | none => false

/-- Result of one iteration of the `start_profiling` loop body (before
the sleep): updated collector state, clock position, the metrics sent
this round, the log lines, and whether the loop exits. -/
inductive LoopDecision where
  | continueLoop
  | stopLoop
deriving DecidableEq, Repr

structure RoundResult where
  mc : MetricCollector
  tick : ℕ
  sent : List SentMetric
  logs : List LogEvent
  decision : LoopDecision
deriving Repr

/-- `Profiler._collect_metrics`: runs `collect_all_metrics` and catches
`psutil.NoSuchProcess` itself, logging a warning and returning with the
state unchanged — the exception does not propagate to the loop. -/
def profiler_collect_metrics (env : SysEnv) (mc : MetricCollector) (tick root index : ℕ) :
    MetricCollector × ℕ × List LogEvent :=
  match collect_all_metrics env { mc := mc, tick := tick, events := [], logs := [] }
      root index with
  | .ok acc => (acc.mc, acc.tick, acc.logs)
  | .error _ => (mc, tick, [LogEvent.processMissingSkipCollection])

/-- One round of the `start_profiling` loop:
`_collect_and_send_metrics` (collect, then `_send_metrics` at the same
`index`), then `_check_stop_signal`; the loop exits only when a "stop"
token was pending (the`except psutil.NoSuchProcess: break` in
`start_profiling` is unreachable because `_collect_metrics` already
swallows that exception). -/
def profiler_round_step (env : SysEnv) (mc : MetricCollector) (tick root index : ℕ)
    (d : JobLabels) (pending : Option String) : RoundResult :=
  let c := profiler_collect_metrics env mc tick root index
  { mc := c.1
    tick := c.2.1
    sent := send_metrics c.1 index d
    logs := c.2.2
    decision := if check_stop_signal pending then .stopLoop else .continueLoop }

/-- Environment with no live process at all: the monitored root is gone. -/
def envRootGone : SysEnv :=
  { procs := fun _ => none, ppidOf := fun _ => 0, descendants := fun _ => []
    netRecvBytes := 0, netSentBytes := 0, time := fun _ => 0 }

def mcEmpty : MetricCollector :=
  { cpu_metrics := [], memory_metrics := [], disk_metrics := [], network_metrics := [] }

def jobLabels0 : JobLabels := { job_id := "j0", executor_id := "e0", call_id := "c0" }

/-- C2 evaluated at the failing input: with the root process gone and no
stop token pending, the loop iteration logs the skip-collection warning
and continues — it does not stop. -/
theorem round_continues_when_root_gone :
    (profiler_round_step envRootGone mcEmpty 0 7 0 jobLabels0 none).decision
      = .continueLoop
  ∧ (profiler_round_step envRootGone mcEmpty 0 7 0 jobLabels0 none).logs
      = [LogEvent.processMissingSkipCollection]
  ∧ LogEvent.level .processMissingSkipCollection = .warning
  ∧ (profiler_round_step envRootGone mcEmpty 0 7 0 jobLabels0 none).sent = []
  ∧ check_stop_signal (some "stop") = true := by
  refine ⟨rfl, rfl, rfl, rfl, rfl⟩

/-- Environment for C1: root 100 with one live child 200. -/
def infoSmall : ProcInfo :=
  { rssBytes := 2097152, cpuPercent := 5, cpuUser := 1, cpuSystem := 1
    cpuChildrenUser := 0, cpuChildrenSystem := 0, cpuIowait := 0
    ioReadBytes := 1048576, ioWriteBytes := 0 }

def envTwoProcs : SysEnv :=
  { procs := fun p => if p = 100 ∨ p = 200 then some infoSmall else none
    ppidOf := fun p => if p = 200 then 100 else 1
    descendants := fun p => if p = 100 then [200] else []
    netRecvBytes := 0, netSentBytes := 0, time := fun t => (t : ℚ) }

/-- C1 evaluated at the failing input: round 0 over a two-process tree
produces a Memory record for the child (pid 200, collection_id 0), but
none of the metrics sent in that round carries the child's pid label —
`_send_metrics` exports only `metric_list[index]` per kind, so the
child's newly produced records are not exported in their round. -/
theorem round_zero_drops_child_records :
    ((profiler_round_step envTwoProcs mcEmpty 0 100 0 jobLabels0 none).mc.memory_metrics.map
        (fun m => (m.pid, m.collection_id))) = [(some 100, 0), (some 200, 0)]
  ∧ ((profiler_round_step envTwoProcs mcEmpty 0 100 0 jobLabels0 none).sent.map
        (fun s => s.labels.filter (fun kv => kv.1 == "pid"))).flatten.all
        (fun kv => kv.2 != "200")
  ∧ ((profiler_round_step envTwoProcs mcEmpty 0 100 0 jobLabels0 none).sent.map
        (fun s => s.name)).length = 15 := by
  refine ⟨?_, ?_, ?_⟩ <;> decide

/-- Failure/observation model for the release sequence of
`profiling_context` (`profiler_context.py`).  Each `...Raises` flag says
whether the corresponding primitive raises when called (a raising
primitive raises every time it is called); the other fields are the
values the primitives observe. -/
structure ShutdownEnv where
  parentWritable : Bool
  parentSendRaises : Bool
  jobrunnerPollRaises : Bool
  jobrunnerMessage : Option String
  jobrunnerWritable : Bool
  jobrunnerSendRaises : Bool
  join5Raises : Bool
  aliveAfterJoin5 : Bool
  isAliveRaises : Bool
  terminateRaises : Bool
  joinRaises : Bool
  aliveInHandler : Bool
  parentCloseRaises : Bool
  childCloseRaises : Bool
deriving DecidableEq, Repr

/-- Externally visible actions of the release sequence, in call order. -/
inductive ShutdownAction where
  | parentSendStop
  | jobrunnerPoll
  | jobrunnerRecv
  | jobrunnerSendStop
  | joinWait (timeout : Option ℕ)
  | isAliveCheck
  | terminateCall
  | closeParent
  | closeChild
  | logWarning
  | logError
deriving DecidableEq, Repr

/-- `_send_stop_signal(parent_conn)`: if the connection is writable,
send "stop" (which may raise); otherwise log a warning.  Returns the
action trace and whether an exception was raised. -/
def send_stop_signal_parent (env : ShutdownEnv) : List ShutdownAction × Bool :=
  if env.parentWritable then ([.parentSendStop], env.parentSendRaises)
  else ([.logWarning], false)

/-- `_handle_jobrunner_signal(jobrunner_conn)`: poll; on a pending
"Finished" message, `_send_stop_signal(jobrunner_conn)`. -/
def handle_jobrunner_signal (env : ShutdownEnv) : List ShutdownAction × Bool :=
  if env.jobrunnerPollRaises then ([.jobrunnerPoll], true)
  else
    match env.jobrunnerMessage with
    | none => ([.jobrunnerPoll], false)
    | some msg =>
        if msg = "Finished" then
          if env.jobrunnerWritable then
            ([.jobrunnerPoll, .jobrunnerRecv, .jobrunnerSendStop], env.jobrunnerSendRaises)
          else ([.jobrunnerPoll, .jobrunnerRecv, .logWarning], false)
        else ([.jobrunnerPoll, .jobrunnerRecv], false)

/-- The `except Exception` handler of `_finalize_process`: log the
error, then `is_alive()` / `terminate()` / unbounded `join()` — these
recovery calls are not themselves guarded, so a failure here escapes
`_finalize_process`. -/
def finalize_handler (env : ShutdownEnv) (t : List ShutdownAction) :
    List ShutdownAction × Bool :=
  let t := t ++ [.logError, .isAliveCheck]
  if env.isAliveRaises then (t, true)
  else if env.aliveInHandler then
    let t := t ++ [.terminateCall]
    if env.terminateRaises then (t, true)
    else (t ++ [.joinWait none], env.joinRaises)
  else (t, false)

/-- `_finalize_process`: `join(timeout=5)`; if still alive, warn,
`terminate()`, then `join()` with no timeout; any exception in that try
block is routed to `finalize_handler`. -/
def finalize_process (env : ShutdownEnv) : List ShutdownAction × Bool :=
  let t : List ShutdownAction := [.joinWait (some 5)]
  if env.join5Raises then finalize_handler env t
  else
    let t := t ++ [.isAliveCheck]
    if env.isAliveRaises then finalize_handler env t
    else if env.aliveAfterJoin5 then
      let t := t ++ [.logWarning, .terminateCall]
      if env.terminateRaises then finalize_handler env t
      else
        let t := t ++ [.joinWait none]
        if env.joinRaises then finalize_handler env t
        else (t, false)
    else (t, false)

/-- `_close_connections`: close parent, then child, inside a single
try/except whose handler only logs. -/
def close_connections (env : ShutdownEnv) : List ShutdownAction × Bool :=
  if env.parentCloseRaises then ([.closeParent, .logError], false)
  else if env.childCloseRaises then ([.closeParent, .closeChild, .logError], false)
  else ([.closeParent, .closeChild], false)

/-- The `finally` block of `profiling_context`: step a
(`_send_stop_signal`, guarded at the call site), step b
(`_handle_jobrunner_signal`, guarded at the call site), step c
(`_finalize_process`, called bare), step d (`_close_connections`,
called bare).  If step c raises, the exception propagates out of the
`finally` block and step d never runs; the returned Bool records that
escape. -/
def release_sequence (env : ShutdownEnv) : List ShutdownAction × Bool :=
  let s1 := send_stop_signal_parent env
  let t1 := if s1.2 then s1.1 ++ [.logError] else s1.1
  let s2 := handle_jobrunner_signal env
  let t2 := if s2.2 then s2.1 ++ [.logError] else s2.1
  let s3 := finalize_process env
  if s3.2 then (t1 ++ t2 ++ s3.1, true)
  else (t1 ++ t2 ++ s3.1 ++ (close_connections env).1, false)

/-- Helper: the finalize step always begins by waiting on the monitor
with the bounded 5-second timeout. -/
theorem finalize_process_starts_join5 (env : ShutdownEnv) :
    ∃ rest, (finalize_process env).1 = .joinWait (some 5) :: rest := by
  unfold finalize_process finalize_handler
  split_ifs <;> exact ⟨_, rfl⟩

/-- Helper: `_close_connections` always starts by closing the parent
endpoint. -/
theorem close_connections_starts_close (env : ShutdownEnv) :
    ∃ rest, (close_connections env).1 = .closeParent :: rest := by
  unfold close_connections
  split_ifs <;> exact ⟨_, rfl⟩

/-- Helper: anything finalize does is part of the release trace,
whatever the earlier steps did. -/
theorem mem_finalize_mem_release (env : ShutdownEnv) (x : ShutdownAction)
    (hx : x ∈ (finalize_process env).1) : x ∈ (release_sequence env).1 := by
  simp only [release_sequence]
  split_ifs <;> simp [List.mem_append, hx]

/-- Helper: when the recovery primitives do not fail, no exception
escapes `_finalize_process`. -/
theorem finalize_process_no_escape (env : ShutdownEnv)
    (h1 : env.isAliveRaises = false) (h2 : env.terminateRaises = false)
    (h3 : env.joinRaises = false) : (finalize_process env).2 = false := by
  simp only [finalize_process, finalize_handler, h1, h2, h3]
  split_ifs <;> simp_all

/-- Helper: a monitor still alive after the bounded wait is terminated
and then joined without timeout. -/
theorem finalize_process_forced_kill (env : ShutdownEnv)
    (h1 : env.join5Raises = false) (h2 : env.isAliveRaises = false)
    (h3 : env.aliveAfterJoin5 = true) (h4 : env.terminateRaises = false) :
    ShutdownAction.terminateCall ∈ (finalize_process env).1
  ∧ ShutdownAction.joinWait none ∈ (finalize_process env).1 := by
  simp only [finalize_process, finalize_handler, h1, h2, h3, h4]
  split_ifs <;> simp_all

/-- Failure configuration falsifying C9: the monitor survives the
5-second wait and `terminate()` raises each time it is called; nothing
else fails. -/
def envTerminateFails : ShutdownEnv :=
  { parentWritable := true, parentSendRaises := false
    jobrunnerPollRaises := false, jobrunnerMessage := none
    jobrunnerWritable := true, jobrunnerSendRaises := false
    join5Raises := false, aliveAfterJoin5 := true
    isAliveRaises := false, terminateRaises := true
    joinRaises := false, aliveInHandler := true
    parentCloseRaises := false, childCloseRaises := false }

/-- C9 counterexample: with the single failing primitive `terminate()`
(all other release primitives succeed), the exception raised inside the
recovery handler of `_finalize_process` escapes and step d never runs —
the channels are not closed, so a failure in one step does prevent a
later step. -/
theorem release_close_skipped :
    (release_sequence envTerminateFails).2 = true
  ∧ ShutdownAction.closeParent ∉ (release_sequence envTerminateFails).1
  ∧ ShutdownAction.closeChild ∉ (release_sequence envTerminateFails).1
  ∧ ShutdownAction.parentSendStop ∈ (release_sequence envTerminateFails).1
  ∧ ShutdownAction.joinWait (some 5) ∈ (release_sequence envTerminateFails).1 := by
  refine ⟨rfl, ?_, ?_, ?_, ?_⟩ <;> decide

/-- C9 (amended): steps a and b are guarded at the call site, so the
bounded 5-second wait of step c is always reached; when the recovery
primitives of step c (`is_alive`, `terminate`, the unbounded `join`) do
not fail, no exception escapes and step d (closing the channels) runs;
and a monitor still alive after the bounded wait is forcibly terminated
and then joined without timeout.  (Only a failure inside step c's
recovery path can suppress step d — see the counterexample.) -/
theorem release_guarded_steps (env : ShutdownEnv) :
    ShutdownAction.joinWait (some 5) ∈ (release_sequence env).1
  ∧ (env.isAliveRaises = false → env.terminateRaises = false → env.joinRaises = false →
      (release_sequence env).2 = false
        ∧ ShutdownAction.closeParent ∈ (release_sequence env).1)
  ∧ (env.join5Raises = false → env.isAliveRaises = false → env.aliveAfterJoin5 = true →
      env.terminateRaises = false →
      ShutdownAction.terminateCall ∈ (release_sequence env).1
        ∧ ShutdownAction.joinWait none ∈ (release_sequence env).1) := by
  refine ⟨?_, ?_, ?_⟩
  · obtain ⟨rest, hr⟩ := finalize_process_starts_join5 env
    exact mem_finalize_mem_release env _ (by rw [hr]; exact List.mem_cons_self _ _)
  · intro h1 h2 h3
    have hesc := finalize_process_no_escape env h1 h2 h3
    obtain ⟨rest, hc⟩ := close_connections_starts_close env
    constructor
    · simp only [release_sequence, hesc]
      split_ifs <;> simp_all
    · simp only [release_sequence, hesc]
      split_ifs <;> simp_all [List.mem_append, hc]
  · intro h1 h2 h3 h4
    obtain ⟨hterm, hjoin⟩ := finalize_process_forced_kill env h1 h2 h3 h4
    exact ⟨mem_finalize_mem_release env _ hterm, mem_finalize_mem_release env _ hjoin⟩

/-- A shutdown in which nothing fails but the monitor outlives the
bounded wait: witness configuration for the amended C9. -/
def envCleanShutdown : ShutdownEnv :=
  { parentWritable := true, parentSendRaises := false
    jobrunnerPollRaises := false, jobrunnerMessage := none
    jobrunnerWritable := true, jobrunnerSendRaises := false
    join5Raises := false, aliveAfterJoin5 := true
    isAliveRaises := false, terminateRaises := false
    joinRaises := false, aliveInHandler := false
    parentCloseRaises := false, childCloseRaises := false }

/-- Witness for the amended C9 at `envCleanShutdown`. -/
theorem release_guarded_steps_witness :
    envCleanShutdown.isAliveRaises = false
  ∧ envCleanShutdown.terminateRaises = false
  ∧ envCleanShutdown.joinRaises = false
  ∧ envCleanShutdown.join5Raises = false
  ∧ envCleanShutdown.aliveAfterJoin5 = true
  ∧ ShutdownAction.joinWait (some 5) ∈ (release_sequence envCleanShutdown).1
  ∧ ((release_sequence envCleanShutdown).2 = false
      ∧ ShutdownAction.closeParent ∈ (release_sequence envCleanShutdown).1)
  ∧ (ShutdownAction.terminateCall ∈ (release_sequence envCleanShutdown).1
      ∧ ShutdownAction.joinWait none ∈ (release_sequence envCleanShutdown).1) :=
  ⟨rfl, rfl, rfl, rfl, rfl,
   (release_guarded_steps envCleanShutdown).1,
   (release_guarded_steps envCleanShutdown).2.1 rfl rfl rfl,
   (release_guarded_steps envCleanShutdown).2.2 rfl rfl rfl rfl⟩

/-- `PrometheusExporter` (`lithopserve/util/metrics.py`): the state the
constructor establishes.  `instanceId` models the `instance` attribute
(`instance` is reserved here); `apigateway` is
`config.get("apigateway") if config else None`, modelled by a
`config : Option (Option String)` (a possibly absent dict whose key may
be missing). -/
structure PrometheusExporter where
  enabled : Bool
  apigateway : Option String
  job : String
  instanceId : String
deriving DecidableEq, Repr

/-- `PrometheusExporter.__init__(enabled, config)` under an environment
mapping variable names to values:
`self.instance = os.environ["__LITHOPS_SESSION_ID"].split("-")[0]` is
executed unconditionally, so a missing variable raises `KeyError`
whatever `enabled` and `config` are. -/
def prometheus_exporter_init (enabled : Bool) (config : Option (Option String))
    (environ : String → Option String) : Except PyError PrometheusExporter :=
  match environ "__LITHOPS_SESSION_ID" with
  | none => .error .keyError
  | some sid =>
      .ok { enabled := enabled
            apigateway := config.bind id
            job := "lithops"
            instanceId := (sid.splitOn "-").headD "" }

/-- C10: for every configuration — including `enabled = false` or a
missing gateway — constructing the exporter fails with a `KeyError`
whenever the session-id environment variable is unset. -/
theorem exporter_init_requires_session_id (enabled : Bool) (config : Option (Option String))
    (environ : String → Option String) (h : environ "__LITHOPS_SESSION_ID" = none) :
    prometheus_exporter_init enabled config environ = .error .keyError := by
  simp [prometheus_exporter_init, h]

/-- Witness for C10: disabled exporter, absent config, empty
environment. -/
theorem exporter_init_requires_session_id_witness :
    ((fun _ : String => (none : Option String)) "__LITHOPS_SESSION_ID" = none)
  ∧ prometheus_exporter_init false none (fun _ => none) = .error .keyError :=
  ⟨rfl, exporter_init_requires_session_id false none (fun _ => none) rfl⟩

end Lithopserve
